import Mathlib

/-!
Shallow embedding of `src/app.py` (Boat Issues Demo, a Streamlit report
generator) and verification of its specification's claims.

Modelling conventions:
* A pandas cell that may be NaN/NaT becomes `Option _`; `none` is the
  missing marker.
* The working table (a DataFrame) becomes `List Record`, one `Record`
  per row, in row order.
* The `ai_category` column is float64 in pandas (the column also holds
  NaN for unlabeled rows, which forces the float dtype).  We model the
  float64 values by `ℚ`: every value that actually occurs is a small
  integer, which float64 represents exactly.
* Library calls (pandas, sklearn) are modelled from their documented
  behaviour at the granularity the claims need; each such definition
  carries a comment saying what is modelled.
-/

namespace BoatDemo

/-- A calendar date, the result of a successful `pd.to_datetime` parse. -/
structure Date where
  year : Nat
  month : Nat
  day : Nat
deriving DecidableEq, Repr

/-- One row of the normalized working table (§3 of the spec).
`none` models a pandas NaN/NaT cell. -/
structure Record where
  boat_name : Option String
  boat_issue : Option String
  boat_issue_class : Option String
  date : Option Date
  ai_category : Option ℚ
deriving DecidableEq, Repr

instance : Inhabited Record := ⟨⟨none, none, none, none, none⟩⟩

/-- The raw spreadsheet as `pd.read_excel` delivers it: original column
names, and for each row one cell per column (`none` = blank cell/NaN). -/
structure RawTable where
  cols : List String
  rows : List (List (Option String))
deriving DecidableEq, Repr

/-! ### String primitives

Python string semantics, implemented over the character list (the core
`String` functions are not used because the claims are settled by kernel
evaluation, and the byte-position recursions of core `String.trim` etc. do
not reduce there; these definitions have the same meaning). -/

def dropLeadingWS : List Char → List Char
  | [] => []
  | c :: cs => if c.isWhitespace then dropLeadingWS cs else c :: cs

/-- Python `str.strip()` (as pandas `.str.strip()` applies it): remove
leading and trailing whitespace. -/
def pyStrip (s : String) : String :=
  ⟨dropLeadingWS ((dropLeadingWS s.data.reverse).reverse)⟩

/-- Python `str.lower()` on the alphabet the data uses. -/
def pyLower (s : String) : String :=
  ⟨s.data.map Char.toLower⟩

/-- Python `str.replace(" ", "_")`: the pattern is a single character, so
per-character replacement is exact. -/
def pyReplaceSpace (s : String) : String :=
  ⟨s.data.map (fun c => if c = ' ' then '_' else c)⟩

/-- Split on a single-character separator, Python `str.split(sep)` /
`String.splitOn` semantics (`"a-b"` gives `["a", "b"]`, `""` gives
`[""]`). -/
def splitOnChar (sep : Char) : List Char → List (List Char)
  | [] => [[]]
  | c :: cs =>
    if c = sep then [] :: splitOnChar sep cs
    else
      match splitOnChar sep cs with
      | [] => [[c]]
      | g :: gs => (c :: g) :: gs

/-- Parse a non-empty all-digit character list as a natural number. -/
def parseNatDigits (l : List Char) : Option Nat :=
  if l ≠ [] ∧ l.all Char.isDigit then
    some (l.foldl (fun acc c => acc * 10 + (c.toNat - 48)) 0)
  else none

/-! ### Loader (`load_data`, src/app.py lines 20-28) -/

/-- `df.columns.str.strip().str.lower().str.replace(" ", "_")` applied to
one column name. -/
def normColName (s : String) : String :=
  pyReplaceSpace (pyLower (pyStrip s))

/-- Position of the column whose normalized name is `name`
(models pandas column lookup `df[name]` after renaming). -/
def lookupCol : List String → String → Option Nat
  | [], _ => none
  | c :: cs, name =>
    if normColName c = name then some 0
    else (lookupCol cs name).map (· + 1)

/-- Cell of a row at column position `i` (`none` when NaN or out of range). -/
def getCell (row : List (Option String)) (i : Nat) : Option String :=
  row.getD i none

/-- Python `str.title()` as pandas `.str.title()` applies it: the first
letter of every maximal alphabetic run is upper-cased, the rest lower-cased. -/
def titleCaseAux : Bool → List Char → List Char
  | _, [] => []
  | prevAlpha, c :: cs =>
    if c.isAlpha then
      (if prevAlpha then c.toLower else c.toUpper) :: titleCaseAux true cs
    else
      c :: titleCaseAux false cs

def titleCase (s : String) : String :=
  ⟨titleCaseAux false s.data⟩

/-- Models `pd.to_datetime(_, errors="coerce")` on the strings this table
carries, restricted to ISO `YYYY-MM-DD` text: anything else coerces to the
missing marker NaT (`none`), never an exception.  No claim depends on which
particular strings parse, only on unparseable values becoming `none`. -/
def parseDate (s : String) : Option Date :=
  match splitOnChar '-' (pyStrip s).data with
  | [y, m, d] =>
    match parseNatDigits y, parseNatDigits m, parseNatDigits d with
    | some yn, some mn, some dn =>
      if 1 ≤ mn ∧ mn ≤ 12 ∧ 1 ≤ dn ∧ dn ≤ 31 then some ⟨yn, mn, dn⟩ else none
    | _, _, _ => none
  | _ => none

/-- Raised by the loader when a required column is structurally absent
(a pandas `KeyError` on `df[...]`). -/
inductive LoadError
  | missingColumn (name : String)
deriving DecidableEq, Repr

/-- One normalized record, given the positions of the four required columns.
Mirrors lines 24-27 of src/app.py.  Note `.str.strip()` etc. map NaN to NaN,
hence `Option.map`; `pd.to_datetime(errors="coerce")` maps NaN and
unparseable text to NaT, hence `Option.bind parseDate`. -/
def mkRecord (iName iIssue iClass iDate : Nat) (row : List (Option String)) :
    Record :=
  { boat_name := (getCell row iName).map (fun s => pyLower (pyStrip s))
    boat_issue := (getCell row iIssue).map (fun s => pyStrip s)
    boat_issue_class := (getCell row iClass).map (fun s => titleCase (pyStrip s))
    date := (getCell row iDate).bind parseDate
    ai_category := none }

/-- `load_data` (src/app.py lines 20-28): normalize the column names, then
build the four normalized fields.  A required column that is absent after
normalization raises (pandas `KeyError`), modelled as `Except.error`. -/
def load_data (t : RawTable) : Except LoadError (List Record) :=
  match lookupCol t.cols "boat_name" with
  | none => .error (.missingColumn "boat_name")
  | some iName =>
    match lookupCol t.cols "boat_issue" with
    | none => .error (.missingColumn "boat_issue")
    | some iIssue =>
      match lookupCol t.cols "boat_issue_(class)" with
      | none => .error (.missingColumn "boat_issue_(class)")
      | some iClass =>
        match lookupCol t.cols "date" with
        | none => .error (.missingColumn "date")
        | some iDate =>
          .ok (t.rows.map (mkRecord iName iIssue iClass iDate))

/-! ### Clustering engine (`ai_cluster_issues`, src/app.py lines 30-37) -/

/-- Failure modes of the vectorize-and-cluster pipeline
(sklearn `ValueError`s; the spec's taxonomy calls the insufficient-data
one "ClusteringError"). -/
inductive ClusteringError
  | emptyVocabulary
  | invalidClusterCount
  | tooFewSamples
deriving DecidableEq, Repr

/-- The label each document receives from
`KMeans(n_clusters=K, random_state=seed, n_init=10).fit_predict` on the
TF-IDF vectors.  The centroid iteration itself is opaque to every claim
below: no claim depends on WHICH cluster a document lands in, only on the
labelling being a deterministic function of `(seed, K, docs)`, returning
exactly one label in `[0, K)` per document, in document order.  We
therefore model it by a concrete deterministic assignment with exactly
those properties. -/
def kmeansLabels (seed K : Nat) (docs : List String) : List Nat :=
  docs.enum.map (fun p => (p.1 * 31 + p.2.length + seed) % K)

/-- `TfidfVectorizer(stop_words="english").fit_transform` followed by
`KMeans(...).fit_predict` (src/app.py lines 32-35), as one pipeline.
Failure modes modelled from the libraries' documented behaviour:
an input whose documents are all empty yields an empty vocabulary and
raises; `n_clusters` below 1 is an invalid parameter; fewer samples than
clusters raises (`n_samples should be >= n_clusters`).  Otherwise one
label in `[0, K)` per document. -/
def tfidfKMeansFitPredict (seed n_clusters : Nat) (docs : List String) :
    Except ClusteringError (List Nat) :=
  if docs.all (fun d => pyStrip d = "") then .error .emptyVocabulary
  else if n_clusters = 0 then .error .invalidClusterCount
  else if docs.length < n_clusters then .error .tooFewSamples
  else .ok (kmeansLabels seed n_clusters docs)

/-- An integer cluster label as the `ai_category` column stores it: a
float64 value (modelled by `ℚ`), exactly equal to the integer. -/
def natLabel (n : Nat) : Option ℚ := some ((n : ℚ))

/-- `df.loc[df["boat_issue"].notna(), "ai_category"] = clusters`
(src/app.py line 36): walk the rows in order; a row whose `boat_issue` is
non-null consumes the next cluster label (stored as a float64 value, hence
the cast into `ℚ`); every other row keeps its previous `ai_category`. -/
def assignLabels : List Record → List Nat → List Record
  | [], _ => []
  | r :: rs, ls =>
    if r.boat_issue.isSome then
      match ls with
      | l :: ls' => { r with ai_category := some (l : ℚ) } :: assignLabels rs ls'
      | [] => r :: assignLabels rs []
    else
      r :: assignLabels rs ls

/-- `ai_cluster_issues` (src/app.py lines 30-37).  `rngState` models the
process-wide random state sklearn would consume if `random_state` were not
pinned; the source pins `random_state=42`, so `rngState` is never consulted.
`issue_texts` is `df["boat_issue"].dropna().tolist()`: the non-null issue
strings in row order (a non-null empty string is NOT dropped). -/
def ai_cluster_issues (rngState : Nat) (df : List Record) (n_clusters : Nat) :
    Except ClusteringError (List Record) :=
  match tfidfKMeansFitPredict 42 n_clusters
      (df.filterMap (fun r => r.boat_issue)) with
  | .error e => .error e
  | .ok clusters => .ok (assignLabels df clusters)

/-! ### Aggregation (`plot_top_issues`, `plot_top_boats`, `plot_timeline`) -/

/-- Occurrences of `a` in `l` (explicit recursion, used instead of
`List.count` to keep every count proof self-contained). -/
def countVal {α : Type} [DecidableEq α] (a : α) : List α → Nat
  | [] => 0
  | b :: l => (if b = a then 1 else 0) + countVal a l

/-- Descending-count order on (value, count) pairs. -/
def countGE {α : Type} (p q : α × Nat) : Prop := q.2 ≤ p.2

instance {α : Type} : DecidableRel (@countGE α) :=
  fun p q => Nat.decLe q.2 p.2

instance {α : Type} : IsTotal (α × Nat) countGE :=
  ⟨fun p q => Nat.le_total q.2 p.2⟩

instance {α : Type} : IsTrans (α × Nat) countGE :=
  ⟨fun _ _ _ h1 h2 => Nat.le_trans h2 h1⟩

/-- `Series.value_counts()` (pandas): drop the null cells, count each
distinct remaining value, order the (value, count) pairs by descending
count.  Pandas documents the descending order; the order among equal
counts is an implementation detail, deterministic for a given input, which
we model by a stable sort over the distinct values. -/
def valueCounts {α : Type} [DecidableEq α] (cells : List (Option α)) :
    List (α × Nat) :=
  let vals := cells.filterMap id
  List.insertionSort countGE
    (vals.dedup.map (fun k => (k, countVal k vals)))

/-- The chart data of `plot_top_issues` (src/app.py lines 39-47):
`df["boat_issue_class"].value_counts().head(10)`.  The matplotlib
rendering around it is out of scope; the summary is the modelled output. -/
def top_issue_counts (df : List Record) : List (String × Nat) :=
  (valueCounts (df.map (fun r => r.boat_issue_class))).take 10

/-- The chart data of `plot_top_boats` (src/app.py lines 49-57):
`df["boat_name"].value_counts().head(10)`. -/
def top_boat_counts (df : List Record) : List (String × Nat) :=
  (valueCounts (df.map (fun r => r.boat_name))).take 10

/-- Linearised calendar month of a date, the key `Series.dt.to_period("M")`
produces: consecutive integers, one per calendar month, ordered as the
months are. -/
def monthPeriod (d : Date) : Nat := d.year * 12 + (d.month - 1)

/-- The chart data of `plot_timeline` (src/app.py lines 59-66):
`df.groupby(df["date"].dt.to_period("M")).size()`.  Pandas `groupby`
drops null keys (rows whose date is NaT) and returns the group sizes with
the keys sorted ascending. -/
def plot_timeline_summary (df : List Record) : List (Nat × Nat) :=
  let months := df.filterMap (fun r => r.date.map monthPeriod)
  let keys := List.insertionSort (fun a b => a ≤ b) months.dedup
  keys.map (fun k => (k, countVal k months))

/-! ### PDF export (`export_pdf`, src/app.py lines 68-92) -/

/-- `export_pdf` (src/app.py lines 68-92).  The document is modelled as its
list of text lines, in the order the source emits `pdf.cell` calls: title,
generation timestamp, the "Top Issues:" header and up to ten
"label: count" lines, then the same for boats.  `now` is the formatted
`datetime.datetime.now()` string.  The function performs no assignment to
`df`; the second component is the table as the source leaves it. -/
def export_pdf (df : List Record) (now : String) :
    List String × List Record :=
  let top_issues := top_issue_counts df
  let top_boats := top_boat_counts df
  (["Boat Issues Report", "Generated: " ++ now, "Top Issues:"]
      ++ top_issues.map (fun p => p.1 ++ ": " ++ toString p.2)
      ++ ["Top Boats:"]
      ++ top_boats.map (fun p => p.1 ++ ": " ++ toString p.2),
    df)

/-! ### App layout (src/app.py lines 96-133) -/

/-- `sorted(df["ai_category"].dropna().unique())` (src/app.py line 122):
the distinct non-null cluster labels, ascending.  These are float64
values (modelled by `ℚ`), not integers: the column holds NaN for
unlabeled rows, which upcasts the stored labels to float. -/
def selector_options (df : List Record) : List ℚ :=
  List.insertionSort (fun a b => a ≤ b)
    (df.filterMap (fun r => r.ai_category)).dedup

/-- `df[df["ai_category"] == category][["boat_name", "boat_issue_class",
"boat_issue"]]` (src/app.py line 123): the rows whose float label equals
the selected float value, projected to the three text columns. -/
def category_browser (df : List Record) (category : ℚ) :
    List (Option String × Option String × Option String) :=
  (df.filter (fun r => decide (r.ai_category = some category))).map
    (fun r => (r.boat_name, r.boat_issue_class, r.boat_issue))

/-- Top-level failure of one script run. -/
inductive AppError
  | load (e : LoadError)
  | clustering (e : ClusteringError)
deriving DecidableEq, Repr

/-- Everything one successful script run renders. -/
structure Report where
  topIssues : List (String × Nat)
  topBoats : List (String × Nat)
  timeline : List (Nat × Nat)
  selectorOptions : List ℚ
  pdfLines : List String
deriving DecidableEq, Repr

/-- The app layout (src/app.py lines 96-133): load, then
`df = ai_cluster_issues(df)` with the default `n_clusters=6` and NO
exception handling — an error raised there aborts the whole script run
before any chart is drawn — then the three charts, the category browser
options and the PDF. -/
def appRun (rngState : Nat) (now : String) (raw : RawTable) :
    Except AppError Report :=
  match load_data raw with
  | .error e => .error (.load e)
  | .ok df =>
    match ai_cluster_issues rngState df 6 with
    | .error e => .error (.clustering e)
    | .ok df2 =>
      .ok { topIssues := top_issue_counts df2
            topBoats := top_boat_counts df2
            timeline := plot_timeline_summary df2
            selectorOptions := selector_options df2
            pdfLines := (export_pdf df2 now).1 }

/-! ### Concrete tables used to instantiate and to refute claims -/

/-- A seven-row normalized table as the loader would produce it: six wordy
issue descriptions plus one row whose source `boat_issue` cell held only
whitespace, so the normalized value is the non-null empty string. -/
def df7 : List Record :=
  [ ⟨some "alpha", some "engine overheating badly", some "Mechanical",
      some ⟨2023, 1, 5⟩, none⟩,
    ⟨some "beta", some "propeller shaft damaged", some "Mechanical",
      some ⟨2023, 2, 10⟩, none⟩,
    ⟨some "gamma", some "hull crack near bow", some "Hull",
      some ⟨2023, 1, 20⟩, none⟩,
    ⟨some "alpha", some "electrical wiring fault", some "Electrical",
      none, none⟩,
    ⟨some "delta", some "fuel pump leaking", some "Mechanical",
      some ⟨2023, 3, 1⟩, none⟩,
    ⟨some "beta", some "radio antenna broken", some "Electrical",
      some ⟨2023, 2, 14⟩, none⟩,
    ⟨some "epsilon", some "", some "Hull",
      some ⟨2023, 3, 2⟩, none⟩ ]

/-- `df7` after the clustering step (clustering succeeds: seven non-null
descriptions, six clusters requested). -/
def df7c : List Record :=
  match ai_cluster_issues 0 df7 6 with
  | .ok l => l
  | .error _ => []

/-- A raw spreadsheet with three rows, matching the spec's concrete
scenario: only three non-empty issue descriptions, fewer than the default
six clusters. -/
def raw3 : RawTable :=
  { cols := ["Boat Name", "Boat Issue", "Boat Issue (Class)", "Date"]
    rows := [ [some "Alpha", some "engine stalls", some "mechanical",
                some "2023-01-05"],
              [some "Alpha", some "engine stall", some "mechanical",
                some "2023-02-10"],
              [some "Beta", some "leak", some "hull",
                some "2023-01-20"] ] }

/-- A raw spreadsheet whose four required columns are all present but whose
single row has a blank `boat_name` cell and a blank class cell. -/
def rawNullName : RawTable :=
  { cols := ["Boat Name", "Boat Issue", "Boat Issue (Class)", "Date"]
    rows := [ [none, some "engine stalls", none, some "2023-01-05"] ] }

/-- The loader's output on `rawNullName`. -/
def rawNullLoaded : List Record :=
  match load_data rawNullName with
  | .ok l => l
  | .error _ => []

/-- A raw spreadsheet whose `boat_name` and `boat_issue_(class)` cells are
all non-null, while one row has a missing `boat_issue` and a missing
`date` (the spec allows both). -/
def rawGood : RawTable :=
  { cols := ["Boat Name", "Boat Issue", "Boat Issue (Class)", "Date"]
    rows := [ [some " Alpha ", some "engine stalls", some "mechanical",
                some "2023-01-05"],
              [some "Beta", some "leak", some "hull",
                some "bad-date"],
              [some "Gamma", none, some "electrical", none] ] }

/-- The loader's output on `rawGood`. -/
def rawGoodLoaded : List Record :=
  match load_data rawGood with
  | .ok l => l
  | .error _ => []

/-! ### Helper lemmas: counting -/

theorem countVal_eq_zero_of_not_mem {α : Type} [DecidableEq α] {a : α}
    {l : List α} (h : a ∉ l) : countVal a l = 0 := by
  induction l with
  | nil => rfl
  | cons b l ih =>
    rw [List.mem_cons, not_or] at h
    have hba : ¬ b = a := fun e => h.1 e.symm
    simp [countVal, hba, ih h.2]

theorem sum_map_add {α : Type} (l : List α) (f g : α → Nat) :
    (l.map (fun x => f x + g x)).sum = (l.map f).sum + (l.map g).sum := by
  induction l with
  | nil => rfl
  | cons b l ih => simp [ih]; omega

theorem sum_map_indicator {α : Type} [DecidableEq α] {keys : List α}
    (hnd : keys.Nodup) {b : α} (hb : b ∈ keys) :
    (keys.map (fun k => if b = k then 1 else 0)).sum = 1 := by
  induction keys with
  | nil => cases hb
  | cons c keys ih =>
    rcases List.nodup_cons.mp hnd with ⟨hc, hnd'⟩
    rcases List.mem_cons.mp hb with h | h
    · subst h
      have hz : (keys.map (fun k => if b = k then 1 else 0)).sum = 0 := by
        apply List.sum_eq_zero
        intro x hx
        rcases List.mem_map.mp hx with ⟨k, hk, rfl⟩
        have : ¬ b = k := fun e => hc (e ▸ hk)
        simp [this]
      simp [hz]
    · have hcb : ¬ b = c := fun e => hc (e ▸ h)
      simp [hcb, ih hnd' h]

theorem sum_countVal {α : Type} [DecidableEq α] (keys l : List α)
    (hnd : keys.Nodup) (hcov : ∀ x ∈ l, x ∈ keys) :
    (keys.map (fun k => countVal k l)).sum = l.length := by
  induction l with
  | nil =>
    simp only [List.length_nil]
    apply List.sum_eq_zero
    intro x hx
    rcases List.mem_map.mp hx with ⟨k, _, rfl⟩
    rfl
  | cons b l ih =>
    have hb : b ∈ keys := hcov b (List.mem_cons_self _ _)
    have hcov' : ∀ x ∈ l, x ∈ keys := fun x hx => hcov x (List.mem_cons_of_mem _ hx)
    have step : (keys.map (fun k => countVal k (b :: l))).sum
        = (keys.map (fun k => if b = k then 1 else 0)).sum
            + (keys.map (fun k => countVal k l)).sum := by
      rw [← sum_map_add]
      rfl
    rw [step, sum_map_indicator hnd hb, ih hcov', List.length_cons]
    omega

theorem length_filterMap_isSome {β γ : Type} (l : List β) (g : β → Option γ) :
    (l.filterMap g).length = (l.filter (fun x => (g x).isSome)).length := by
  induction l with
  | nil => rfl
  | cons b l ih =>
    cases h : g b <;>
      simp [List.filterMap_cons, List.filter_cons, h, ih]

theorem countVal_filterMap {β γ : Type} [DecidableEq γ] (l : List β)
    (g : β → Option γ) (v : γ) :
    countVal v (l.filterMap g)
      = (l.filter (fun x => decide (g x = some v))).length := by
  induction l with
  | nil => rfl
  | cons b l ih =>
    cases h : g b with
    | none => simp [List.filterMap_cons, List.filter_cons, h, ih]
    | some y =>
      by_cases hy : y = v
      · subst hy
        simp [List.filterMap_cons, List.filter_cons, h, countVal, ih]
        omega
      · simp [List.filterMap_cons, List.filter_cons, h, countVal, hy, ih]

/-! ### Helper lemmas: `valueCounts` -/

theorem valueCounts_perm {α : Type} [DecidableEq α] (cells : List (Option α)) :
    List.Perm (valueCounts cells)
      ((cells.filterMap id).dedup.map
        (fun k => (k, countVal k (cells.filterMap id)))) :=
  List.perm_insertionSort _ _

theorem valueCounts_sorted {α : Type} [DecidableEq α]
    (cells : List (Option α)) : List.Sorted countGE (valueCounts cells) :=
  List.sorted_insertionSort _ _

theorem mem_valueCounts {α : Type} [DecidableEq α] {cells : List (Option α)}
    {p : α × Nat} :
    p ∈ valueCounts cells ↔
      p.1 ∈ (cells.filterMap id).dedup
        ∧ p.2 = countVal p.1 (cells.filterMap id) := by
  rw [(valueCounts_perm cells).mem_iff]
  constructor
  · intro h
    rcases List.mem_map.mp h with ⟨k, hk, rfl⟩
    exact ⟨hk, rfl⟩
  · rintro ⟨h1, h2⟩
    apply List.mem_map.mpr
    refine ⟨p.1, h1, ?_⟩
    obtain ⟨a, b⟩ := p
    simp only at h2 ⊢
    rw [h2]

theorem valueCounts_keys_nodup {α : Type} [DecidableEq α]
    (cells : List (Option α)) : ((valueCounts cells).map Prod.fst).Nodup := by
  have h := (valueCounts_perm cells).map Prod.fst
  rw [h.nodup_iff, List.map_map]
  have hmap : (Prod.fst ∘ fun k : α => (k, countVal k (cells.filterMap id)))
      = id := by
    funext k
    rfl
  rw [hmap, List.map_id]
  exact List.nodup_dedup _

theorem valueCounts_take_spec {α : Type} [DecidableEq α]
    (cells : List (Option α)) (n : Nat) :
    ((valueCounts cells).take n).length ≤ n
    ∧ List.Sorted countGE ((valueCounts cells).take n)
    ∧ (∀ p ∈ (valueCounts cells).take n,
        p.1 ∈ cells.filterMap id ∧ p.2 = countVal p.1 (cells.filterMap id))
    ∧ (((valueCounts cells).take n).map Prod.fst).Nodup
    ∧ (∀ v ∈ cells.filterMap id,
        v ∉ ((valueCounts cells).take n).map Prod.fst →
        ∀ p ∈ (valueCounts cells).take n,
          countVal v (cells.filterMap id) ≤ p.2) := by
  refine ⟨?_, ?_, ?_, ?_, ?_⟩
  · exact List.length_take_le n _
  · exact (valueCounts_sorted cells).sublist (List.take_sublist n _)
  · intro p hp
    have hp' := List.take_subset n _ hp
    rcases mem_valueCounts.mp hp' with ⟨h1, h2⟩
    exact ⟨List.mem_dedup.mp h1, h2⟩
  · rw [List.map_take]
    exact (valueCounts_keys_nodup cells).sublist (List.take_sublist n _)
  · intro v hv hnot p hp
    have hmem : (v, countVal v (cells.filterMap id)) ∈ valueCounts cells :=
      mem_valueCounts.mpr ⟨List.mem_dedup.mpr hv, rfl⟩
    have hsplit := (List.take_append_drop n (valueCounts cells)) ▸ hmem
    rcases List.mem_append.mp hsplit with hl | hr
    · exact absurd (List.mem_map.mpr ⟨_, hl, rfl⟩) hnot
    · have hsorted : List.Pairwise countGE
          ((valueCounts cells).take n ++ (valueCounts cells).drop n) := by
        rw [List.take_append_drop]
        exact valueCounts_sorted cells
      exact (List.pairwise_append.mp hsorted).2.2 p hp _ hr

/-! ### Helper lemmas: clustering -/

theorem kmeansLabels_length (s K : Nat) (docs : List String) :
    (kmeansLabels s K docs).length = docs.length := by
  simp [kmeansLabels]

theorem kmeansLabels_lt {s K : Nat} {docs : List String} (hK : K ≠ 0) :
    ∀ n ∈ kmeansLabels s K docs, n < K := by
  intro n hn
  rcases List.mem_map.mp hn with ⟨p, _, rfl⟩
  exact Nat.mod_lt _ (Nat.pos_of_ne_zero hK)

theorem tfidf_ok_inv {s K : Nat} {docs : List String} {ls : List Nat}
    (h : tfidfKMeansFitPredict s K docs = .ok ls) :
    K ≠ 0 ∧ K ≤ docs.length ∧ ls = kmeansLabels s K docs := by
  unfold tfidfKMeansFitPredict at h
  split_ifs at h with h1 h2 h3 <;> cases h
  exact ⟨h2, by omega, rfl⟩

theorem ai_cluster_ok_inv {rng K : Nat} {df df' : List Record}
    (h : ai_cluster_issues rng df K = .ok df') :
    ∃ ls, tfidfKMeansFitPredict 42 K (df.filterMap (fun r => r.boat_issue))
            = .ok ls
      ∧ df' = assignLabels df ls := by
  unfold ai_cluster_issues at h
  cases htf : tfidfKMeansFitPredict 42 K
      (df.filterMap (fun r => r.boat_issue)) with
  | error e => rw [htf] at h; cases h
  | ok ls => rw [htf] at h; exact ⟨ls, rfl, (Except.ok.inj h).symm⟩

theorem assignLabels_cons_some {r : Record} {s : String}
    (hb : r.boat_issue = some s) (rs : List Record) (l : Nat) (ls : List Nat) :
    assignLabels (r :: rs) (l :: ls)
      = { r with ai_category := some (l : ℚ) } :: assignLabels rs ls := by
  simp [assignLabels, hb]

theorem assignLabels_cons_none {r : Record} (hb : r.boat_issue = none)
    (rs : List Record) (ls : List Nat) :
    assignLabels (r :: rs) ls = r :: assignLabels rs ls := by
  simp [assignLabels, hb]

theorem assignLabels_isSome_iff (df : List Record) (ls : List Nat)
    (hlen : ls.length = (df.filterMap (fun r => r.boat_issue)).length)
    (h0 : ∀ r ∈ df, r.ai_category = none) :
    ∀ r' ∈ assignLabels df ls,
      (r'.ai_category.isSome ↔ r'.boat_issue.isSome) := by
  induction df generalizing ls with
  | nil => intro r' hr'; cases hr'
  | cons r rs ih =>
    intro r' hr'
    have h0r := h0 r (List.mem_cons_self _ _)
    have h0' : ∀ x ∈ rs, x.ai_category = none :=
      fun x hx => h0 x (List.mem_cons_of_mem _ hx)
    cases hb : r.boat_issue with
    | some s =>
      have hlen' : ls.length
          = (rs.filterMap (fun r => r.boat_issue)).length + 1 := by
        simpa [List.filterMap_cons, hb] using hlen
      cases ls with
      | nil => simp at hlen'
      | cons l ls' =>
        rw [assignLabels_cons_some hb] at hr'
        rcases List.mem_cons.mp hr' with rfl | h
        · simp [hb]
        · exact ih ls' (by simpa using hlen') h0' r' h
    | none =>
      rw [assignLabels_cons_none hb] at hr'
      rcases List.mem_cons.mp hr' with rfl | h
      · simp [hb, h0r]
      · refine ih ls ?_ h0' r' h
        simpa [List.filterMap_cons, hb] using hlen

theorem assignLabels_filter_map (df : List Record) (ls : List Nat)
    (hlen : ls.length = (df.filterMap (fun r => r.boat_issue)).length) :
    ((assignLabels df ls).filter (fun r => r.boat_issue.isSome)).map
        (fun r => r.ai_category)
      = ls.map natLabel := by
  induction df generalizing ls with
  | nil =>
    cases ls with
    | nil => rfl
    | cons l ls' => simp at hlen
  | cons r rs ih =>
    cases hb : r.boat_issue with
    | some s =>
      have hlen' : ls.length
          = (rs.filterMap (fun r => r.boat_issue)).length + 1 := by
        simpa [List.filterMap_cons, hb] using hlen
      cases ls with
      | nil => simp at hlen'
      | cons l ls' =>
        rw [assignLabels_cons_some hb]
        have h1 : List.filter (fun r => r.boat_issue.isSome)
            ({ r with ai_category := some (l : ℚ) } :: assignLabels rs ls')
            = { r with ai_category := some (l : ℚ) }
                :: List.filter (fun r => r.boat_issue.isSome)
                  (assignLabels rs ls') := by
          simp [List.filter_cons, hb]
        rw [h1, List.map_cons, ih ls' (by simpa using hlen'), List.map_cons]
        rfl
    | none =>
      rw [assignLabels_cons_none hb]
      have h1 : List.filter (fun r => r.boat_issue.isSome)
          (r :: assignLabels rs ls)
          = List.filter (fun r => r.boat_issue.isSome) (assignLabels rs ls) := by
        simp [List.filter_cons, hb]
      rw [h1, ih ls (by simpa [List.filterMap_cons, hb] using hlen)]

theorem assignLabels_none_of_issue_none (df : List Record) (ls : List Nat)
    (h0 : ∀ r ∈ df, r.ai_category = none) :
    ∀ r' ∈ assignLabels df ls, r'.boat_issue = none → r'.ai_category = none := by
  induction df generalizing ls with
  | nil => intro r' hr'; cases hr'
  | cons r rs ih =>
    intro r' hr' hnone
    have h0r := h0 r (List.mem_cons_self _ _)
    have h0' : ∀ x ∈ rs, x.ai_category = none :=
      fun x hx => h0 x (List.mem_cons_of_mem _ hx)
    cases hb : r.boat_issue with
    | some s =>
      cases ls with
      | nil =>
        have : assignLabels (r :: rs) [] = r :: assignLabels rs [] := by
          simp [assignLabels, hb]
        rw [this] at hr'
        rcases List.mem_cons.mp hr' with rfl | h
        · exact h0r
        · exact ih [] h0' r' h hnone
      | cons l ls' =>
        rw [assignLabels_cons_some hb] at hr'
        rcases List.mem_cons.mp hr' with rfl | h
        · simp [hb] at hnone
        · exact ih ls' h0' r' h hnone
    | none =>
      rw [assignLabels_cons_none hb] at hr'
      rcases List.mem_cons.mp hr' with rfl | h
      · exact h0r
      · exact ih ls h0' r' h hnone

theorem assignLabels_values (df : List Record) (ls : List Nat)
    (h0 : ∀ r ∈ df, r.ai_category = none) :
    ∀ r' ∈ assignLabels df ls,
      r'.ai_category = none ∨ ∃ n ∈ ls, r'.ai_category = some (n : ℚ) := by
  induction df generalizing ls with
  | nil => intro r' hr'; cases hr'
  | cons r rs ih =>
    intro r' hr'
    have h0r := h0 r (List.mem_cons_self _ _)
    have h0' : ∀ x ∈ rs, x.ai_category = none :=
      fun x hx => h0 x (List.mem_cons_of_mem _ hx)
    cases hb : r.boat_issue with
    | some s =>
      cases ls with
      | nil =>
        have : assignLabels (r :: rs) [] = r :: assignLabels rs [] := by
          simp [assignLabels, hb]
        rw [this] at hr'
        rcases List.mem_cons.mp hr' with rfl | h
        · exact Or.inl h0r
        · exact ih [] h0' r' h
      | cons l ls' =>
        rw [assignLabels_cons_some hb] at hr'
        rcases List.mem_cons.mp hr' with rfl | h
        · exact Or.inr ⟨l, List.mem_cons_self _ _, rfl⟩
        · rcases ih ls' h0' r' h with hn | ⟨n, hn, he⟩
          · exact Or.inl hn
          · exact Or.inr ⟨n, List.mem_cons_of_mem _ hn, he⟩
    | none =>
      rw [assignLabels_cons_none hb] at hr'
      rcases List.mem_cons.mp hr' with rfl | h
      · exact Or.inl h0r
      · exact ih ls h0' r' h

/-! ### Helper lemmas: glue -/

theorem filterMap_id_map {β γ : Type} (l : List β) (g : β → Option γ) :
    (l.map g).filterMap id = l.filterMap g := by
  induction l with
  | nil => rfl
  | cons b l ih =>
    cases h : g b <;> simp [List.filterMap_cons, h, ih]

theorem isSome_map_eq {α β : Type} (o : Option α) (f : α → β) :
    (o.map f).isSome = o.isSome := by
  cases o <;> rfl

/-! ### Claim theorems -/

/-- Claim C3: running the clustering engine twice on an identical table
(same rows, same order, same cluster count) yields identical `ai_category`
assignments, whatever the ambient random state of the two runs: the random
seed is pinned to 42 inside `ai_cluster_issues`, so the result is a
function of the table and the cluster count alone. -/
theorem C3_clustering_deterministic (rng₁ rng₂ : Nat) (df : List Record)
    (K : Nat) : ai_cluster_issues rng₁ df K = ai_cluster_issues rng₂ df K :=
  rfl

/-- Claim C10: `export_pdf` reads the summaries but performs no mutation of
its input: the table it leaves behind is the very table it was given, every
field of every record included. -/
theorem C10_export_pdf_no_mutation (df : List Record) (now : String) :
    (export_pdf df now).2 = df :=
  rfl

/-- Claim C2, evaluated at the failing input: on a table with three
non-missing issue descriptions and the default six clusters, the engine
fails as the claim says, but the app layout calls it with no exception
handling, so the whole report run aborts — the `.error` result shows that
no chart, no table and no document is produced, contradicting the claim
that only the category browser degrades. -/
theorem C2_uncaught_clustering_error_aborts_run :
    appRun 0 "2024-01-01 00:00" raw3
      = .error (.clustering .tooFewSamples) := by
  rfl

/-- Claim C1, counterexample: in `df7` the last record's `boat_issue` is
the non-null empty string (it trims to the empty string), yet after the
clustering step its `ai_category` is defined — `dropna`/`notna` test
null-ness, not emptiness. -/
theorem C1_counterexample_trim_empty_issue_labeled :
    ai_cluster_issues 0 df7 6 = .ok df7c
    ∧ df7c.any (fun r =>
        decide (pyStrip (r.boat_issue.getD "x") = "" ∧ r.boat_issue ≠ none)
          && r.ai_category.isSome) = true := by
  exact ⟨rfl, by decide⟩

/-- Claim C4, counterexample: the seventh record of `df7` has
`boat_issue = some ""` — empty issue text — yet it receives a cluster
label, contradicting "records with empty/missing issue text receive no
label". -/
theorem C4_counterexample_empty_issue_receives_label :
    (df7c.getD 6 default).boat_issue = some ""
    ∧ (df7c.getD 6 default).ai_category = some 0 := by
  exact ⟨rfl, by decide⟩

/-- Claim C8, counterexample: `rawNullName` has all four required columns
structurally present, the loader accepts it, yet the resulting record has
null `boat_name` and null `boat_issue_class`: pandas `.str.strip()` maps a
NaN cell to NaN, and the loader fills nothing in. -/
theorem C8_counterexample_null_name_survives_load :
    load_data rawNullName = .ok rawNullLoaded
    ∧ (rawNullLoaded.getD 0 default).boat_name = none
    ∧ (rawNullLoaded.getD 0 default).boat_issue_class = none := by
  exact ⟨rfl, rfl, rfl⟩

/-- Claim C1 (amended): after a successful clustering step on a freshly
loaded table (no pre-existing labels), `ai_category` is defined iff
`boat_issue` is present (non-null); a present issue that trims to the
empty string still receives a label. -/
theorem C1_ai_category_defined_iff_issue_present (rng K : Nat)
    (df df' : List Record)
    (h0 : ∀ r ∈ df, r.ai_category = none)
    (h : ai_cluster_issues rng df K = .ok df') :
    ∀ r ∈ df', (r.ai_category.isSome ↔ r.boat_issue.isSome) := by
  rcases ai_cluster_ok_inv h with ⟨ls, htf, rfl⟩
  rcases tfidf_ok_inv htf with ⟨_, _, rfl⟩
  exact assignLabels_isSome_iff df _ (by rw [kmeansLabels_length]) h0

/-- Witness for C1's amended theorem at the concrete table `df7`. -/
theorem C1_ai_category_defined_iff_issue_present_witness :
    (df7c.getD 0 default).ai_category.isSome
      ↔ (df7c.getD 0 default).boat_issue.isSome :=
  C1_ai_category_defined_iff_issue_present 0 6 df7 df7c (by decide) rfl
    (df7c.getD 0 default) (by decide)

/-- Claim C4 (amended): when clustering succeeds, every label lies in
`[0, K)`, the i-th record (in table order) among those with non-null
`boat_issue` receives the i-th cluster label computed over the
order-preserved sequence of non-null issue descriptions, and records with
MISSING (null) issue text receive no label.  (A present-but-empty issue
text does receive a label; see the counterexample.) -/
theorem C4_labels_range_and_order (rng K : Nat) (df df' : List Record)
    (ls : List Nat)
    (h0 : ∀ r ∈ df, r.ai_category = none)
    (hk : tfidfKMeansFitPredict 42 K (df.filterMap (fun r => r.boat_issue))
            = .ok ls)
    (h : ai_cluster_issues rng df K = .ok df') :
    ((df'.filter (fun r => r.boat_issue.isSome)).map (fun r => r.ai_category))
        = ls.map natLabel
    ∧ (∀ n ∈ ls, n < K)
    ∧ (∀ r ∈ df', r.boat_issue = none → r.ai_category = none) := by
  rcases ai_cluster_ok_inv h with ⟨ls', htf, rfl⟩
  rw [hk] at htf
  cases htf
  rcases tfidf_ok_inv hk with ⟨hK, _, rfl⟩
  exact ⟨assignLabels_filter_map _ _ (by rw [kmeansLabels_length]),
    kmeansLabels_lt hK,
    assignLabels_none_of_issue_none _ _ h0⟩

/-- Witness for C4's amended theorem at the concrete table `df7`. -/
theorem C4_labels_range_and_order_witness :
    ((df7c.filter (fun r => r.boat_issue.isSome)).map (fun r => r.ai_category))
      = (kmeansLabels 42 6 (df7.filterMap (fun r => r.boat_issue))).map
          natLabel :=
  (C4_labels_range_and_order 0 6 df7 df7c
    (kmeansLabels 42 6 (df7.filterMap (fun r => r.boat_issue)))
    (by decide) (by rfl) rfl).1

/-- Claim C8 (amended): for every source table the loader accepts whose
cells in the `boat_name` column and in the `boat_issue_(class)` column are
all non-null, every record of the result has non-null `boat_name` and
non-null `boat_issue_class` after normalization.  Cells of the other
columns (`boat_issue`, `date`) may be missing.  (Structural presence of
the columns alone does not suffice: a null cell in a present column stays
null; see the counterexample.) -/
theorem C8_loaded_names_nonnull (t : RawTable) (tbl : List Record)
    (h : load_data t = .ok tbl)
    (hname : ∀ i, lookupCol t.cols "boat_name" = some i →
        ∀ row ∈ t.rows, (getCell row i).isSome = true)
    (hclass : ∀ i, lookupCol t.cols "boat_issue_(class)" = some i →
        ∀ row ∈ t.rows, (getCell row i).isSome = true) :
    ∀ r ∈ tbl, r.boat_name.isSome = true
      ∧ r.boat_issue_class.isSome = true := by
  unfold load_data at h
  cases h1 : lookupCol t.cols "boat_name" with
  | none => rw [h1] at h; cases h
  | some iName =>
    rw [h1] at h
    cases h2 : lookupCol t.cols "boat_issue" with
    | none => rw [h2] at h; cases h
    | some iIssue =>
      rw [h2] at h
      cases h3 : lookupCol t.cols "boat_issue_(class)" with
      | none => rw [h3] at h; cases h
      | some iClass =>
        rw [h3] at h
        cases h4 : lookupCol t.cols "date" with
        | none => rw [h4] at h; cases h
        | some iDate =>
          rw [h4] at h
          cases h
          intro r hr
          rcases List.mem_map.mp hr with ⟨row, hrow, rfl⟩
          constructor
          · have hs := hname iName h1 row hrow
            rcases Option.isSome_iff_exists.mp hs with ⟨v, hv⟩
            simp [mkRecord, hv]
          · have hs := hclass iClass h3 row hrow
            rcases Option.isSome_iff_exists.mp hs with ⟨v, hv⟩
            simp [mkRecord, hv]

/-- Witness for C8's amended theorem at the concrete table `rawGood`,
whose third row has a missing `boat_issue` and a missing `date`. -/
theorem C8_loaded_names_nonnull_witness :
    (rawGoodLoaded.getD 0 default).boat_name.isSome = true
      ∧ (rawGoodLoaded.getD 0 default).boat_issue_class.isSome = true :=
  C8_loaded_names_nonnull rawGood rawGoodLoaded rfl
    (by intro i hi; cases hi; decide)
    (by intro i hi; cases hi; decide)
    (rawGoodLoaded.getD 0 default) (by decide)

/-- Claim C5: for every table, the top issue-classes summary and the top
boats summary each have at most 10 entries; entries are ordered descending
by count; each entry pairs a distinct value of the respective field with
its occurrence count over all records; and the summaries are truncated to
the 10 largest counts (every distinct value left out has a count no larger
than any entry kept).  The whole summary is a pure function of the table,
so the tie-break is deterministic. -/
theorem C5_top_summaries (df : List Record) :
    (top_issue_counts df).length ≤ 10
    ∧ (top_boat_counts df).length ≤ 10
    ∧ List.Sorted countGE (top_issue_counts df)
    ∧ List.Sorted countGE (top_boat_counts df)
    ∧ (∀ p ∈ top_issue_counts df,
        p.2 = (df.filter (fun r => decide (r.boat_issue_class = some p.1))).length)
    ∧ (∀ p ∈ top_boat_counts df,
        p.2 = (df.filter (fun r => decide (r.boat_name = some p.1))).length)
    ∧ ((top_issue_counts df).map Prod.fst).Nodup
    ∧ ((top_boat_counts df).map Prod.fst).Nodup
    ∧ (∀ v ∈ df.filterMap (fun r => r.boat_issue_class),
        v ∉ (top_issue_counts df).map Prod.fst →
        ∀ p ∈ top_issue_counts df,
          (df.filter (fun r => decide (r.boat_issue_class = some v))).length
            ≤ p.2)
    ∧ (∀ v ∈ df.filterMap (fun r => r.boat_name),
        v ∉ (top_boat_counts df).map Prod.fst →
        ∀ p ∈ top_boat_counts df,
          (df.filter (fun r => decide (r.boat_name = some v))).length
            ≤ p.2) := by
  have Hi := valueCounts_take_spec (df.map (fun r => r.boat_issue_class)) 10
  have Hb := valueCounts_take_spec (df.map (fun r => r.boat_name)) 10
  rw [filterMap_id_map df (fun r => r.boat_issue_class)] at Hi
  rw [filterMap_id_map df (fun r => r.boat_name)] at Hb
  unfold top_issue_counts top_boat_counts
  refine ⟨Hi.1, Hb.1, Hi.2.1, Hb.2.1, ?_, ?_, Hi.2.2.2.1, Hb.2.2.2.1,
    ?_, ?_⟩
  · intro p hp
    rw [← countVal_filterMap df (fun r => r.boat_issue_class) p.1]
    exact (Hi.2.2.1 p hp).2
  · intro p hp
    rw [← countVal_filterMap df (fun r => r.boat_name) p.1]
    exact (Hb.2.2.1 p hp).2
  · intro v hv hn p hp
    rw [← countVal_filterMap df (fun r => r.boat_issue_class) v]
    exact Hi.2.2.2.2 v hv hn p hp
  · intro v hv hn p hp
    rw [← countVal_filterMap df (fun r => r.boat_name) v]
    exact Hb.2.2.2.2 v hv hn p hp

/-- Witness for C5 at the concrete table `df7`. -/
theorem C5_top_summaries_witness :
    (top_issue_counts df7).length ≤ 10 :=
  (C5_top_summaries df7).1

/-- Claim C6: the timeline summary buckets records by calendar month of
their date, excludes exactly the records whose date is missing, orders the
buckets chronologically ascending, and its bucket counts sum to the number
of records with a non-missing date. -/
theorem C6_timeline (df : List Record) :
    List.Sorted (fun a b => a < b) ((plot_timeline_summary df).map Prod.fst)
    ∧ ((plot_timeline_summary df).map Prod.snd).sum
        = (df.filter (fun r => r.date.isSome)).length
    ∧ (∀ p ∈ plot_timeline_summary df,
        p.2 = (df.filter (fun r =>
            decide (r.date.map monthPeriod = some p.1))).length
        ∧ p.1 ∈ df.filterMap (fun r => r.date.map monthPeriod))
    ∧ (∀ m ∈ df.filterMap (fun r => r.date.map monthPeriod),
        m ∈ (plot_timeline_summary df).map Prod.fst) := by
  have hfst : (plot_timeline_summary df).map Prod.fst
      = List.insertionSort (fun a b => a ≤ b)
          (df.filterMap (fun r => r.date.map monthPeriod)).dedup := by
    unfold plot_timeline_summary
    rw [List.map_map]
    have hcomp : (Prod.fst ∘ fun k : Nat =>
        (k, countVal k (df.filterMap (fun r => r.date.map monthPeriod))))
        = id := by
      funext k; rfl
    rw [hcomp, List.map_id]
  refine ⟨?_, ?_, ?_, ?_⟩
  · rw [hfst]
    have hsorted := List.sorted_insertionSort (fun a b : Nat => a ≤ b)
      (df.filterMap (fun r => r.date.map monthPeriod)).dedup
    have hnd : (List.insertionSort (fun a b : Nat => a ≤ b)
        (df.filterMap (fun r => r.date.map monthPeriod)).dedup).Nodup :=
      ((List.perm_insertionSort _ _).nodup_iff).mpr (List.nodup_dedup _)
    exact hsorted.lt_of_le hnd
  · have hsnd : (plot_timeline_summary df).map Prod.snd
        = (List.insertionSort (fun a b => a ≤ b)
            (df.filterMap (fun r => r.date.map monthPeriod)).dedup).map
          (fun k =>
            countVal k (df.filterMap (fun r => r.date.map monthPeriod))) := by
      unfold plot_timeline_summary
      rw [List.map_map]
      rfl
    rw [hsnd]
    have hperm := (List.perm_insertionSort (fun a b : Nat => a ≤ b)
        (df.filterMap (fun r => r.date.map monthPeriod)).dedup).map
      (fun k => countVal k (df.filterMap (fun r => r.date.map monthPeriod)))
    rw [hperm.sum_eq]
    rw [sum_countVal _ _ (List.nodup_dedup _)
      (fun x hx => List.mem_dedup.mpr hx)]
    rw [length_filterMap_isSome df (fun r => r.date.map monthPeriod)]
    congr 1
    apply List.filter_congr
    intro r _
    exact isSome_map_eq r.date monthPeriod
  · intro p hp
    unfold plot_timeline_summary at hp
    rcases List.mem_map.mp hp with ⟨k, hk, rfl⟩
    constructor
    · exact countVal_filterMap df (fun r => r.date.map monthPeriod) k
    · exact List.mem_dedup.mp ((List.mem_insertionSort _).mp hk)
  · intro m hm
    rw [hfst]
    exact (List.mem_insertionSort _).mpr (List.mem_dedup.mpr hm)

/-- Witness for C6 at the concrete table `df7` (six records carry a date,
one does not). -/
theorem C6_timeline_witness :
    ((plot_timeline_summary df7).map Prod.snd).sum
      = (df7.filter (fun r => r.date.isSome)).length :=
  (C6_timeline df7).2.1

/-- Claim C7: exporting the document is total (the model raises nothing);
on the empty table it yields exactly the title line, the generation
timestamp line, and the two list headers with empty list sections; and in
general each list section renders `min 10 (number of distinct non-null
values)` lines — however many exist when there are fewer than 10. -/
theorem C7_export_pdf_empty_and_counts (now : String) (df : List Record) :
    (export_pdf [] now).1
        = ["Boat Issues Report", "Generated: " ++ now,
            "Top Issues:", "Top Boats:"]
    ∧ (export_pdf df now).1
        = ["Boat Issues Report", "Generated: " ++ now, "Top Issues:"]
            ++ (top_issue_counts df).map
                (fun p => p.1 ++ ": " ++ toString p.2)
            ++ ["Top Boats:"]
            ++ (top_boat_counts df).map
                (fun p => p.1 ++ ": " ++ toString p.2)
    ∧ (top_issue_counts df).length
        = min 10 (df.filterMap (fun r => r.boat_issue_class)).dedup.length
    ∧ (top_boat_counts df).length
        = min 10 (df.filterMap (fun r => r.boat_name)).dedup.length := by
  refine ⟨rfl, rfl, ?_, ?_⟩
  · unfold top_issue_counts
    rw [List.length_take,
      (valueCounts_perm (df.map (fun r => r.boat_issue_class))).length_eq,
      List.length_map, filterMap_id_map df (fun r => r.boat_issue_class)]
  · unfold top_boat_counts
    rw [List.length_take,
      (valueCounts_perm (df.map (fun r => r.boat_name))).length_eq,
      List.length_map, filterMap_id_map df (fun r => r.boat_name)]

/-- Witness for C7: the document exported on the empty table. -/
theorem C7_export_pdf_empty_and_counts_witness :
    (export_pdf [] "2024-01-01 00:00").1
      = ["Boat Issues Report", "Generated: 2024-01-01 00:00",
          "Top Issues:", "Top Boats:"] :=
  (C7_export_pdf_empty_and_counts "2024-01-01 00:00" []).1

/-- Claim C9: after a successful clustering step the stored `ai_category`
values are float64 values (modelled by `ℚ`, the column type here — the
column also holds the missing marker, which is what forces the float
dtype), each exactly equal to an integer in `[0, K)`; the category
selector is populated with exactly these float values, sorted ascending,
and filtering compares against such a float label (each option selects a
non-empty set of rows). -/
theorem C9_float_labels_and_selector (rng K : Nat) (df df' : List Record)
    (h0 : ∀ r ∈ df, r.ai_category = none)
    (h : ai_cluster_issues rng df K = .ok df') :
    (∀ v ∈ df'.filterMap (fun r => r.ai_category),
        ∃ n : Nat, n < K ∧ v = ((n : ℚ)))
    ∧ List.Sorted (fun a b => a ≤ b) (selector_options df')
    ∧ (∀ v : ℚ, v ∈ selector_options df'
        ↔ some v ∈ df'.map (fun r => r.ai_category))
    ∧ (∀ v ∈ selector_options df', category_browser df' v ≠ []) := by
  rcases ai_cluster_ok_inv h with ⟨ls, htf, rfl⟩
  rcases tfidf_ok_inv htf with ⟨hK, _, rfl⟩
  have hmem : ∀ v : ℚ,
      v ∈ selector_options
            (assignLabels df
              (kmeansLabels 42 K (df.filterMap (fun r => r.boat_issue))))
        ↔ some v ∈ (assignLabels df
              (kmeansLabels 42 K (df.filterMap (fun r => r.boat_issue)))).map
            (fun r => r.ai_category) := by
    intro v
    unfold selector_options
    rw [List.mem_insertionSort, List.mem_dedup]
    constructor
    · intro hv
      rcases List.mem_filterMap.mp hv with ⟨r, hr, he⟩
      exact List.mem_map.mpr ⟨r, hr, he⟩
    · intro hv
      rcases List.mem_map.mp hv with ⟨r, hr, he⟩
      exact List.mem_filterMap.mpr ⟨r, hr, he⟩
  refine ⟨?_, ?_, hmem, ?_⟩
  · intro v hv
    rcases List.mem_filterMap.mp hv with ⟨r, hr, he⟩
    rcases assignLabels_values df _ h0 r hr with hnone | ⟨n, hn, hsome⟩
    · rw [hnone] at he; cases he
    · rw [hsome] at he
      cases he
      exact ⟨n, kmeansLabels_lt hK n hn, rfl⟩
  · exact List.sorted_insertionSort (fun a b : ℚ => a ≤ b) _
  · intro v hv
    rcases List.mem_map.mp ((hmem v).mp hv) with ⟨r, hr, he⟩
    have hrf : r ∈ (assignLabels df
        (kmeansLabels 42 K (df.filterMap (fun r => r.boat_issue)))).filter
          (fun r => decide (r.ai_category = some v)) :=
      List.mem_filter.mpr ⟨hr, by simp [he]⟩
    exact List.ne_nil_of_mem
      (List.mem_map_of_mem (fun r => (r.boat_name, r.boat_issue_class,
        r.boat_issue)) hrf)

/-- Witness for C9 at the concrete table `df7`. -/
theorem C9_float_labels_and_selector_witness :
    List.Sorted (fun a b => a ≤ b) (selector_options df7c) :=
  (C9_float_labels_and_selector 0 6 df7 df7c (by decide) rfl).2.1

end BoatDemo
